import Mathlib

/-!
Verification of the sandbox / virtual-machine supervisors of
taskcluster-worker (native engine sandbox, qemu VM, image inspection).

The Go source is shallowly embedded: each Go function that a claim touches
becomes a Lean definition over explicit state; external effects (process
spawning, file downloads, subprocess output, json decoding) are supplied as
explicit environment values so that the control flow of the Go code is what
the definitions capture.
-/

namespace TCWorker

/-- Errors of the Go code, as structured values. The two sentinel errors of
the engines package are dedicated constructors; fmt.Errorf wrappers carry a
fixed message tag plus the wrapped inner error, and
runtime.NewMalformedPayloadError becomes the malformedPayload constructor. -/
inductive GoError where
  | errSandboxTerminated : GoError
  | errSandboxAborted : GoError
  | malformedPayload : String → GoError
  | ioError : String → GoError
  | wrap : String → GoError → GoError
  deriving DecidableEq, Repr

/-! ## Native-engine sandbox (src/engines/native/sandbox.go)

The sandbox resolves exactly once, under three racing triggers: the
natural-completion watcher (waitForTermination), Kill and Abort. The gate
is atomics.Once whose source is not in src/. Its semantics are taken from
the spec: the gate admits exactly one executor of a Do body, everyone else
waits for that executor to finish, and Wait blocks until the body is done.
Under that gate, every interleaving of the three triggers is equivalent to
applying them in some serial order, so an execution is modelled as a
nonempty list of resolution events applied in sequence. -/

/-- Abstract result set of the native sandbox: the fields the resolution
bodies store (we keep only the success flag; the other fields are copied
references that do not vary between bodies). -/
structure ResultSetModel where
  success : Bool
  deriving DecidableEq, Repr

/-- A resolution trigger: the natural-completion watcher with the process's
success flag, a Kill call, or an Abort call. -/
inductive Resolver where
  | natural : Bool → Resolver
  | kill : Resolver
  | abort : Resolver
  deriving DecidableEq, Repr

/-- State of one sandbox: the guarded result fields (resultSet, resultErr,
abortErr), the one-shot gate (resolved, winner, bodyRuns), and counters
recording the externally visible teardown actions each body performs, so
that re-running teardown would be visible in the state. -/
structure SandboxState where
  createUser : Bool
  workingFolderPresent : Bool
  resolved : Bool
  winner : Option Resolver
  bodyRuns : Nat
  resultSet : Option ResultSetModel
  resultErr : Option GoError
  abortErr : Option GoError
  sessionsDrained : Bool
  killProcessTreeCount : Nat
  abortShellsCount : Nat
  killByOwnerCount : Nat
  userRemoved : Bool
  workingFolderRemoved : Bool
  deriving DecidableEq, Repr

/-- Sandbox state as newSandbox builds it: unresolved, nothing torn down,
the working folder allocated exactly when an ephemeral user is created. -/
def initialSandbox (createUser : Bool) : SandboxState :=
  { createUser := createUser
    workingFolderPresent := createUser
    resolved := false
    winner := none
    bodyRuns := 0
    resultSet := none
    resultErr := none
    abortErr := none
    sessionsDrained := false
    killProcessTreeCount := 0
    abortShellsCount := 0
    killByOwnerCount := 0
    userRemoved := false
    workingFolderRemoved := false }

/-- Body passed to resolve.Do by waitForTermination: kill stray processes by
owner when an ephemeral user exists, store the completed resultSet with the
process's success flag, and set abortErr to ErrSandboxTerminated. It does
not assign resultErr. -/
def waitForTerminationBody (success : Bool) (s : SandboxState) : SandboxState :=
  let s1 := if s.createUser then { s with killByOwnerCount := s.killByOwnerCount + 1 } else s
  { s1 with
    resultSet := some { success := success }
    abortErr := some GoError.errSandboxTerminated }

/-- Body passed to resolve.Do by Kill: kill the process tree, abort all
shells (drain the session registry and wait), kill stray processes by owner
when an ephemeral user exists, store a failed resultSet, and set abortErr
to ErrSandboxTerminated. It does not assign resultErr. -/
def killBody (s : SandboxState) : SandboxState :=
  let s1 := { s with killProcessTreeCount := s.killProcessTreeCount + 1 }
  let s2 := { s1 with sessionsDrained := true, abortShellsCount := s1.abortShellsCount + 1 }
  let s3 := if s2.createUser then { s2 with killByOwnerCount := s2.killByOwnerCount + 1 } else s2
  { s3 with
    resultSet := some { success := false }
    abortErr := some GoError.errSandboxTerminated }

/-- Body passed to resolve.Do by Abort: kill the process tree, abort all
shells, then when an ephemeral user exists kill its processes and remove
the user, remove the working folder when present, and set resultErr to
ErrSandboxAborted. It does not assign abortErr. -/
def abortBody (s : SandboxState) : SandboxState :=
  let s1 := { s with killProcessTreeCount := s.killProcessTreeCount + 1 }
  let s2 := { s1 with sessionsDrained := true, abortShellsCount := s1.abortShellsCount + 1 }
  let s3 :=
    if s2.createUser then
      { s2 with killByOwnerCount := s2.killByOwnerCount + 1, userRemoved := true }
    else s2
  let s4 :=
    if s3.workingFolderPresent then { s3 with workingFolderRemoved := true } else s3
  { s4 with resultErr := some GoError.errSandboxAborted }

/-- Modelled from the spec: the resolve gate is atomics.Once (package
runtime/atomics, not under src/). Per the spec it admits exactly one
executor of the Do body and makes every other caller wait for that executor
to finish, so a losing trigger runs no body and observes the stored state. -/
def resolveDo (r : Resolver) (s : SandboxState) : SandboxState :=
  if s.resolved then s
  else
    let s' :=
      match r with
      | Resolver.natural success => waitForTerminationBody success s
      | Resolver.kill => killBody s
      | Resolver.abort => abortBody s
    { s' with resolved := true, winner := some r, bodyRuns := s.bodyRuns + 1 }

/-- One resolution trigger as it executes: the natural-completion watcher
drains the session registry (WaitAndDrain) before entering the gate, even
when it subsequently loses; Kill and Abort go straight to the gate. -/
def applyResolver (r : Resolver) (s : SandboxState) : SandboxState :=
  match r with
  | Resolver.natural _ => resolveDo r { s with sessionsDrained := true }
  | Resolver.kill => resolveDo r s
  | Resolver.abort => resolveDo r s

/-- A serialized execution: the resolution triggers applied in the order
the gate admits them. -/
def runResolvers (evs : List Resolver) (s : SandboxState) : SandboxState :=
  evs.foldl (fun st e => applyResolver e st) s

/-- Return value of WaitForResult, read after resolve.Wait. -/
def waitForResultReturn (s : SandboxState) : Option ResultSetModel × Option GoError :=
  (s.resultSet, s.resultErr)

/-- Return value of Kill: the stored resultErr, read after resolve.Wait. -/
def killReturn (s : SandboxState) : Option GoError :=
  s.resultErr

/-- Return value of Abort: the stored abortErr, read after resolve.Wait. -/
def abortReturn (s : SandboxState) : Option GoError :=
  s.abortErr

/-! ## Session registry (atomics.WaitGroup) and NewShell -/

/-- Modelled from the spec: atomics.WaitGroup (package runtime/atomics, not
under src/). A counted gate: Add fails once draining has started, Done
decrements the count, Drain stops intake without blocking, and the
Wait / WaitAndDrain operations block until the count reaches zero. -/
structure WaitGroupState where
  count : Nat
  draining : Bool
  deriving DecidableEq, Repr

/-- Modelled from the spec: Add increments the count, or fails (returning
an error in Go, here none) when the registry is already draining. -/
def wgAdd (n : Nat) (w : WaitGroupState) : Option WaitGroupState :=
  if w.draining then none else some { w with count := w.count + n }

/-- Modelled from the spec: Done decrements the count. -/
def wgDone (w : WaitGroupState) : WaitGroupState :=
  { w with count := w.count - 1 }

/-- Modelled from the spec: Drain stops intake of new sessions. -/
def wgDrain (w : WaitGroupState) : WaitGroupState :=
  { w with draining := true }

/-- Outcome of one NewShell call: the returned value or error, the session
registry afterwards, and the sandbox's shell list afterwards (shells are
abstracted as numeric identifiers). -/
structure ShellCallResult where
  result : Except GoError Nat
  sessions : WaitGroupState
  shells : List Nat
  deriving Repr

/-- NewShell under the shells mutex: increment the session count (failing
with ErrSandboxTerminated when draining), spawn the shell, roll the count
back with Done when spawning fails, otherwise register the new shell. -/
def newShellCall (spawnOk : Bool) (sid : Nat) (sessions : WaitGroupState)
    (shells : List Nat) : ShellCallResult :=
  match wgAdd 1 sessions with
  | none =>
      { result := Except.error GoError.errSandboxTerminated
        sessions := sessions
        shells := shells }
  | some w1 =>
      if spawnOk then
        { result := Except.ok sid, sessions := w1, shells := shells ++ [sid] }
      else
        { result := Except.error (GoError.malformedPayload "Unable to spawn command")
          sessions := wgDone w1
          shells := shells }

/-! ## Virtual machine supervisor (src/engines/qemu/vm/vm.go) -/

/-- Network attachment while owned by the VM; released network is
represented by the VM field becoming none. The handler installed through
SetHTTPHandler is abstracted as a numeric identifier. -/
structure NetworkState where
  handler : Option Nat
  deriving DecidableEq, Repr

/-- Mutable fields of VirtualMachine that Start, the exit watcher,
SetHTTPHandler and VNCSocket touch: the started flag, the owned network and
image (none once released and set to nil), the private socket folder
(empty string once removed), the terminal Error field, and whether the
done channel has been closed. -/
structure VMState where
  started : Bool
  network : Option NetworkState
  image : Option Nat
  socketFolder : String
  error : Option GoError
  doneClosed : Bool
  deriving DecidableEq, Repr

/-- Externally visible steps of Start and of the exit watcher, recorded as
a trace so that ordering and multiplicity can be stated. -/
inductive VMAction where
  | recordExitError
  | closeStdout
  | closeStderr
  | releaseNetwork
  | releaseImage
  | removeSocketFolder
  | closeDone
  deriving DecidableEq, Repr

/-- SetHTTPHandler: under the mutex, forward the handler to the network
attachment, ignoring the call when the network has been released. -/
def setHTTPHandler (vm : VMState) (h : Nat) : VMState :=
  match vm.network with
  | none => vm
  | some n => { vm with network := some { n with handler := some h } }

/-- VNCSocket: path of the vnc socket inside the socket folder while the
folder exists, empty string once the folder has been reclaimed. -/
def vncSocketPath (vm : VMState) : String :=
  if vm.socketFolder = "" then "" else vm.socketFolder ++ "/" ++ "vnc.sock"

/-- Exit-watcher step recording the exit error from qemu.Wait only when no
earlier error is already stored. -/
def recordExitError (werr : Option GoError) (vm : VMState) : VMState :=
  if vm.error = none then { vm with error := werr } else vm

/-- Exit watcher launched by Start after a successful spawn: under the
mutex it records the wait error (first error wins), closes both output
pipes, releases the network and the image setting both fields to nil,
removes the socket folder, and closes the done channel last. The returned
trace lists the steps in source order. -/
def exitWatcher (werr : Option GoError) (vm : VMState) : List VMAction × VMState :=
  let vm1 := recordExitError werr vm
  let vm2 := { vm1 with network := none }
  let vm3 := { vm2 with image := none }
  let vm4 := { vm3 with socketFolder := "" }
  let vm5 := { vm4 with doneClosed := true }
  ([VMAction.recordExitError, VMAction.closeStdout, VMAction.closeStderr,
    VMAction.releaseNetwork, VMAction.releaseImage, VMAction.removeSocketFolder,
    VMAction.closeDone], vm5)

/-- What the readiness select in Start receives: a value from the
socketsReady channel (none when the channel is closed on success, some err
when the monitor sent an error), or the done channel firing first because
qemu exited before the sockets appeared. -/
inductive ReadinessCase where
  | ready : Option GoError → ReadinessCase
  | doneFirst : ReadinessCase
  deriving DecidableEq, Repr

/-- Readiness select at the end of Start, translated verbatim: on a monitor
error the code stores it into the Error field only when Error is already
non-nil (the guard in the source reads vm.Error != nil), then calls Kill;
the boolean reports whether Kill was invoked. -/
def readinessSelect (rc : ReadinessCase) (vm : VMState) : VMState × Bool :=
  match rc with
  | ReadinessCase.ready (some err) =>
      (if vm.error ≠ none then { vm with error := some err } else vm, true)
  | ReadinessCase.ready none => (vm, false)
  | ReadinessCase.doneFirst => (vm, false)

/-- Start: panics (none) when already started; otherwise sets started,
and either fails to arm socket-folder monitoring (store the error, close
done), fails to spawn qemu (store the error, close done), or spawns, runs
the readiness select, and lets the exit watcher tear everything down. The
select and the watcher are serialized here with the select first, which is
the order in which their mutex-protected sections can interleave when the
select's Kill precedes the process exit; neither order affects the done
channel, which only the three modelled paths touch. -/
def startVM (watcherErr spawnErr : Option GoError) (rc : ReadinessCase)
    (werr : Option GoError) (vm : VMState) : Option (List VMAction × VMState) :=
  if vm.started then none
  else
    let vm0 := { vm with started := true }
    match watcherErr with
    | some e => some ([VMAction.closeDone], { vm0 with error := some e, doneClosed := true })
    | none =>
      match spawnErr with
      | some e => some ([VMAction.closeDone], { vm0 with error := some e, doneClosed := true })
      | none => some (exitWatcher werr (readinessSelect rc vm0).1)

/-! ## Socket-readiness monitor (waitForSockets) -/

def vncSocketFile : String := "vnc.sock"

def qmpSocketFile : String := "qmp.sock"

/-- Events the monitor goroutine can receive in its select: a filesystem
notification (create flag plus name), the done channel firing, the
90-second timer firing, or a watcher error. -/
inductive MonitorEvent where
  | fsEvent : Bool → String → MonitorEvent
  | doneSignal : MonitorEvent
  | timeout : MonitorEvent
  | watchFailure : GoError → MonitorEvent
  deriving DecidableEq, Repr

/-- Outcome of the monitor goroutine: closing the done channel (success),
sending an error on it, stopping because the VM died, or still waiting
when the supplied event stream runs out. -/
inductive MonitorOutcome where
  | success : MonitorOutcome
  | deliver : GoError → MonitorOutcome
  | stopped : MonitorOutcome
  | pending : MonitorOutcome
  deriving DecidableEq, Repr

/-- Timeout error sent when the sockets do not appear within 90 seconds. -/
def socketTimeoutError : GoError :=
  GoError.ioError "vnc and qmp sockets didn't show up in 90s"

/-- Monitor loop of waitForSockets: while either socket is missing, handle
the next event — a create event for a socket file marks it seen, the done
channel stops monitoring, the 90s timer or a watch error is delivered on
the channel; when both sockets have been seen the channel is closed. -/
def monitorLoop : List MonitorEvent → Bool → Bool → MonitorOutcome
  | _, true, true => MonitorOutcome.success
  | [], _, _ => MonitorOutcome.pending
  | MonitorEvent.fsEvent isCreate name :: rest, v, q =>
      if isCreate then
        monitorLoop rest (v || name == vncSocketFile) (q || name == qmpSocketFile)
      else
        monitorLoop rest v q
  | MonitorEvent.doneSignal :: _, _, _ => MonitorOutcome.stopped
  | MonitorEvent.timeout :: _, _, _ => MonitorOutcome.deliver socketTimeoutError
  | MonitorEvent.watchFailure e :: _, _, _ =>
      MonitorOutcome.deliver (GoError.wrap "Error monitoring file system" e)

/-! ## Context fetching and sandbox construction (newSandbox, fetchContext) -/

/-- Extension of a path in the manner of Go's filepath.Ext: the suffix of
the last slash-separated element starting at its final dot, or the empty
string when that element has no dot. The first argument is the path
reversed, the second accumulates the suffix already passed. -/
def fileExtAux : List Char → List Char → String
  | [], _ => ""
  | c :: rest, acc =>
    if c = '/' then ""
    else if c = '.' then String.mk ('.' :: acc)
    else fileExtAux rest (c :: acc)

/-- Go's filepath.Ext. -/
def fileExt (path : String) : String :=
  fileExtAux path.data.reverse []

/-- External effects of fetchContext, supplied explicitly: the download
result (the stored file name on success), errors of chmod and of the
ownership change, and the results of the three unpackers. -/
structure FetchEnv where
  download : Except GoError String
  chmodErr : Option GoError
  chownErr : Option GoError
  unzipErr : Option GoError
  gunzip : Except GoError String
  untarErr : Option GoError
  deriving Repr

/-- The fetchContext function: download, chmod 0700, change owner, then
unpack by extension — zip and gz are the only recognized archive
extensions, any other extension skips unpacking without error; a gunzipped
file ending in .tar is additionally untarred. Returns the error, none on
success. -/
def fetchContext (env : FetchEnv) : Option GoError :=
  match env.download with
  | Except.error e => some (GoError.wrap "Error downloading" e)
  | Except.ok filename =>
    match env.chmodErr with
    | some e => some (GoError.wrap "Error setting file permissions" e)
    | none =>
      match env.chownErr with
      | some e => some e
      | none =>
        let unpack : Option GoError × String :=
          if fileExt filename = ".zip" then (env.unzipErr, "")
          else if fileExt filename = ".gz" then
            match env.gunzip with
            | Except.ok f => (none, f)
            | Except.error e => (some e, "")
          else (none, "")
        match unpack.1 with
        | some e => some (GoError.wrap "Error unpacking" e)
        | none =>
          if fileExt unpack.2 = ".tar" then
            match env.untarErr with
            | some e => some (GoError.wrap "Error unpacking" e)
            | none => none
          else none

/-- External effects of newSandbox: whether an ephemeral user is configured,
the errors of folder allocation and user creation (or of resolving the
current user), the optional context URL, the fetch effects, and the result
of starting the primary process. -/
structure BuildEnv where
  createUser : Bool
  newFolderErr : Option GoError
  createUserErr : Option GoError
  currentUserErr : Option GoError
  contextURL : String
  fetch : FetchEnv
  startProcessErr : Option GoError
  deriving Repr

/-- Outcome of newSandbox: the returned sandbox or error, which resources
had been acquired when it returned, and which ones the deferred cleanup
removed. -/
structure BuildOutcome where
  result : Except GoError SandboxState
  folderAllocated : Bool
  userAllocated : Bool
  folderRemoved : Bool
  userRemoved : Bool
  deriving Repr

/-- Continuation of newSandbox after the user is resolved: fetch the
context when one is configured (failures become malformed-payload errors),
then start the primary process (spawn failures become malformed-payload
errors); on any error the deferred cleanup removes the user when one is
owned (createUser) and the folder when one was allocated — user first,
folder second, the reverse of acquisition order. -/
def newSandboxAfterUser (env : BuildEnv) (folderAlloc : Bool) : BuildOutcome :=
  let userOwned := env.createUser
  if env.contextURL = "" then
    match env.startProcessErr with
    | some _ =>
        { result := Except.error (GoError.malformedPayload "Unable to start specified command")
          folderAllocated := folderAlloc, userAllocated := userOwned
          folderRemoved := folderAlloc, userRemoved := userOwned }
    | none =>
        { result := Except.ok (initialSandbox env.createUser)
          folderAllocated := folderAlloc, userAllocated := userOwned
          folderRemoved := false, userRemoved := false }
  else
    match fetchContext env.fetch with
    | some _ =>
        { result := Except.error (GoError.malformedPayload ("Error downloading " ++ env.contextURL))
          folderAllocated := folderAlloc, userAllocated := userOwned
          folderRemoved := folderAlloc, userRemoved := userOwned }
    | none =>
        match env.startProcessErr with
        | some _ =>
            { result := Except.error (GoError.malformedPayload "Unable to start specified command")
              folderAllocated := folderAlloc, userAllocated := userOwned
              folderRemoved := folderAlloc, userRemoved := userOwned }
        | none =>
            { result := Except.ok (initialSandbox env.createUser)
              folderAllocated := folderAlloc, userAllocated := userOwned
              folderRemoved := false, userRemoved := false }

/-- The newSandbox constructor: with createUser, allocate the temporary
folder then create the ephemeral user (a user-creation failure triggers the
deferred cleanup, which removes the already-allocated folder); without
createUser, borrow the current user (never owned, never removed); then
continue with context fetching and process start. -/
def newSandbox (env : BuildEnv) : BuildOutcome :=
  if env.createUser then
    match env.newFolderErr with
    | some e =>
        { result := Except.error (GoError.wrap "Failed to temporary folder" e)
          folderAllocated := false, userAllocated := false
          folderRemoved := false, userRemoved := false }
    | none =>
      match env.createUserErr with
      | some e =>
          { result := Except.error (GoError.wrap "Failed to create temporary system user" e)
            folderAllocated := true, userAllocated := false
            folderRemoved := true, userRemoved := false }
      | none => newSandboxAfterUser env true
  else
    match env.currentUserErr with
    | some e =>
        { result := Except.error e
          folderAllocated := false, userAllocated := false
          folderRemoved := false, userRemoved := false }
    | none => newSandboxAfterUser env false

/-! ## Image inspection (package image, inspectImageFile) -/

/-- Snapshot meta-data of a qcow2 file. -/
structure SnapshotInfo where
  name : String
  id : String
  stateSize : Nat
  deriving DecidableEq, Repr

/-- Meta-data of a disk image as reported by qemu-img info. -/
structure Information where
  file : String
  format : String
  virtualSize : Int
  clusterSize : Int
  actualSize : Int
  dirtyFlag : Bool
  backingFormat : String
  backingFile : String
  snapshots : List SnapshotInfo
  deriving DecidableEq, Repr

/-- Image formats of the image package. -/
inductive ImageFormat where
  | raw : ImageFormat
  | qcow2 : ImageFormat
  deriving DecidableEq, Repr

/-- Format flag passed to qemu-img: qcow2 for the qcow2 format, raw
otherwise. -/
def formatArg : ImageFormat → String
  | ImageFormat.qcow2 => "qcow2"
  | ImageFormat.raw => "raw"

/-- External effects of inspectImageFile: the combined result of running
the qemu-img subprocess as a function of the format flag it is passed (its
standard output on success), and the json decoder applied to that output (none when the bytes do not unmarshal into
the information schema). -/
structure QemuImgEnv where
  output : String → Except GoError String
  unmarshal : String → Option Information

/-- The inspectImageFile function: run qemu-img info with the format flag;
a subprocess failure yields none (logged, not propagated), an unmarshal
failure yields none, and only a successful run whose output unmarshals
yields the populated information value. -/
def inspectImageFile (format : ImageFormat) (env : QemuImgEnv) : Option Information :=
  match env.output (formatArg format) with
  | Except.error _ => none
  | Except.ok data =>
    match env.unmarshal data with
    | none => none
    | some info => some info

/-! ## Lemmas about the resolution gate -/

lemma resolveDo_resolved (r : Resolver) (s : SandboxState) (h : s.resolved = true) :
    resolveDo r s = s := by
  simp [resolveDo, h]

lemma resolveDo_marks_resolved (r : Resolver) (s : SandboxState) :
    (resolveDo r s).resolved = true := by
  by_cases h : s.resolved = true
  · rw [resolveDo_resolved r s h]; exact h
  · simp only [Bool.not_eq_true] at h
    simp [resolveDo, h]

/-- On a state that is already resolved and whose sessions are already
drained, every further trigger is a no-op: the gate refuses the body, and
the natural watcher's pre-gate drain changes nothing. A losing natural
watcher on an undrained state would still drain, which is exactly what the
Go code does with sessions.WaitAndDrain outside the gate. -/
lemma applyResolver_frozen (r : Resolver) (s : SandboxState)
    (h : s.resolved = true) (hd : s.sessionsDrained = true) :
    applyResolver r s = s := by
  cases r with
  | natural b =>
      have hs : ({ s with sessionsDrained := true } : SandboxState) = s := by
        cases s; simp_all
      simp only [applyResolver, hs, resolveDo_resolved _ _ h]
  | kill => simp [applyResolver, resolveDo_resolved _ _ h]
  | abort => simp [applyResolver, resolveDo_resolved _ _ h]

lemma applyResolver_resolves (r : Resolver) (s : SandboxState) :
    (applyResolver r s).resolved = true := by
  cases r <;> simp [applyResolver, resolveDo_marks_resolved]

lemma applyResolver_drains (r : Resolver) (s : SandboxState) (h : s.resolved = false) :
    (applyResolver r s).sessionsDrained = true := by
  cases r with
  | natural b =>
      simp [applyResolver, resolveDo, h, waitForTerminationBody]
      split <;> rfl
  | kill =>
      simp [applyResolver, resolveDo, h, killBody]
      split <;> rfl
  | abort =>
      simp [applyResolver, resolveDo, h, abortBody]
      split <;> split <;> rfl

lemma runResolvers_frozen (evs : List Resolver) (s : SandboxState)
    (h : s.resolved = true) (hd : s.sessionsDrained = true) :
    runResolvers evs s = s := by
  induction evs with
  | nil => rfl
  | cons e rest ih =>
      show runResolvers rest (applyResolver e s) = s
      rw [applyResolver_frozen e s h hd]
      exact ih

lemma runResolvers_cons (e : Resolver) (evs : List Resolver) (s : SandboxState) :
    runResolvers (e :: evs) s = runResolvers evs (applyResolver e s) := rfl

/-- Facts about the state right after the first trigger enters the gate on
a fresh sandbox: the gate is fired, sessions are drained, exactly one body
has run, the winner is recorded, and the stored errors are those the
winning body assigns — resultErr is set only by an Abort winner, abortErr
by a Kill or natural winner. -/
lemma firstStepFacts (cu : Bool) (e : Resolver) :
    (applyResolver e (initialSandbox cu)).resolved = true ∧
    (applyResolver e (initialSandbox cu)).sessionsDrained = true ∧
    (applyResolver e (initialSandbox cu)).bodyRuns = 1 ∧
    (applyResolver e (initialSandbox cu)).winner = some e ∧
    (applyResolver e (initialSandbox cu)).resultErr =
      (if e = Resolver.abort then some GoError.errSandboxAborted else none) ∧
    (applyResolver e (initialSandbox cu)).abortErr =
      (if e = Resolver.abort then none else some GoError.errSandboxTerminated) := by
  cases e with
  | natural b => cases b <;> cases cu <;> decide
  | kill => cases cu <;> decide
  | abort => cases cu <;> decide

lemma runResolvers_first (cu : Bool) (e : Resolver) (evs : List Resolver) :
    runResolvers (e :: evs) (initialSandbox cu) = applyResolver e (initialSandbox cu) := by
  obtain ⟨h1, h2, -⟩ := firstStepFacts cu e
  rw [runResolvers_cons]
  exact runResolvers_frozen evs _ h1 h2

/-! ## Claim theorems -/

/-- C1: over every serialized admission order of concurrent Kill, Abort and
the natural-completion watcher on one sandbox, exactly one resolution body
executes (the first trigger admitted by the one-shot gate wins); any
further triggers — in particular a repeated Kill — leave the state,
including every teardown counter, unchanged, so every WaitForResult caller
and every repeated Kill observes the identical stored ResultSet and error
and no teardown is re-run. -/
theorem sandbox_resolution_exactly_once (cu : Bool) (e : Resolver) (evs evs' : List Resolver) :
    (runResolvers (e :: evs) (initialSandbox cu)).bodyRuns = 1 ∧
    (runResolvers (e :: evs) (initialSandbox cu)).winner = some e ∧
    runResolvers evs' (runResolvers (e :: evs) (initialSandbox cu)) =
      runResolvers (e :: evs) (initialSandbox cu) ∧
    waitForResultReturn (runResolvers evs' (runResolvers (e :: evs) (initialSandbox cu))) =
      waitForResultReturn (runResolvers (e :: evs) (initialSandbox cu)) ∧
    killReturn (runResolvers evs' (runResolvers (e :: evs) (initialSandbox cu))) =
      killReturn (runResolvers (e :: evs) (initialSandbox cu)) := by
  obtain ⟨h1, h2, h3, h4, -⟩ := firstStepFacts cu e
  have hfirst := runResolvers_first cu e evs
  have hfrozen : runResolvers evs' (runResolvers (e :: evs) (initialSandbox cu)) =
      runResolvers (e :: evs) (initialSandbox cu) := by
    rw [hfirst]
    exact runResolvers_frozen evs' _ h1 h2
  refine ⟨?_, ?_, hfrozen, by rw [hfrozen], by rw [hfrozen]⟩
  · rw [hfirst]; exact h3
  · rw [hfirst]; exact h4

/-- C8: Kill returns the stored resultErr, and resultErr is assigned by no
body except the Abort body; hence Kill returns nil whenever Kill itself or
the natural-completion watcher won the gate, and returns the aborted error
exactly when a prior Abort won. -/
theorem sandbox_kill_returns_nil_unless_abort_won (cu : Bool) (e : Resolver)
    (evs : List Resolver) :
    killReturn (runResolvers (e :: evs) (initialSandbox cu)) =
      (if e = Resolver.abort then some GoError.errSandboxAborted else none) := by
  obtain ⟨-, -, -, -, h5, -⟩ := firstStepFacts cu e
  rw [runResolvers_first cu e evs]
  exact h5

/-- C4 counterexample: when Abort itself wins the one-shot gate, the value
Abort returns is its stored abortErr, which the Abort body never assigns —
the winning Abort call returns nil, not an aborted-outcome error. -/
theorem sandbox_abort_winner_returns_nil_counterexample :
    abortReturn (runResolvers [Resolver.abort] (initialSandbox true)) = none ∧
    abortReturn (runResolvers [Resolver.abort] (initialSandbox true)) ≠
      some GoError.errSandboxAborted := by
  decide

/-- C4 amended: the aborted outcome a winning Abort produces is stored in
resultErr — the error WaitForResult and any later Kill return — and is
distinct from the terminated outcome: after a winning Kill or natural
completion, resultErr is nil (a result set remains inspectable) and
abortErr holds the terminated error that a later Abort returns; the
winning Abort call itself returns nil. -/
theorem sandbox_abort_outcome_distinct (cu b : Bool) (evs : List Resolver) :
    killReturn (runResolvers (Resolver.abort :: evs) (initialSandbox cu)) =
      some GoError.errSandboxAborted ∧
    abortReturn (runResolvers (Resolver.abort :: evs) (initialSandbox cu)) = none ∧
    killReturn (runResolvers (Resolver.kill :: evs) (initialSandbox cu)) = none ∧
    abortReturn (runResolvers (Resolver.kill :: evs) (initialSandbox cu)) =
      some GoError.errSandboxTerminated ∧
    killReturn (runResolvers (Resolver.natural b :: evs) (initialSandbox cu)) = none ∧
    abortReturn (runResolvers (Resolver.natural b :: evs) (initialSandbox cu)) =
      some GoError.errSandboxTerminated ∧
    GoError.errSandboxAborted ≠ GoError.errSandboxTerminated := by
  obtain ⟨-, -, -, -, ha5, ha6⟩ := firstStepFacts cu Resolver.abort
  obtain ⟨-, -, -, -, hk5, hk6⟩ := firstStepFacts cu Resolver.kill
  obtain ⟨-, -, -, -, hn5, hn6⟩ := firstStepFacts cu (Resolver.natural b)
  rw [runResolvers_first cu Resolver.abort evs, runResolvers_first cu Resolver.kill evs,
    runResolvers_first cu (Resolver.natural b) evs]
  refine ⟨?_, ?_, ?_, ?_, ?_, ?_, by decide⟩
  · simpa using ha5
  · simpa using ha6
  · simpa using hk5
  · simpa using hk6
  · simpa using hn5
  · simpa using hn6

/-- C2: on a not-yet-started VirtualMachine, Start closes the done channel
exactly once in every execution — whether socket-folder monitoring fails to
arm, qemu fails to spawn, or the exit watcher runs after the process ends —
and never leaves it open when the VM is finished. -/
theorem vm_done_closed_exactly_once (watcherErr spawnErr werr : Option GoError)
    (rc : ReadinessCase) (vm : VMState) (h : vm.started = false) :
    ∃ tr vm', startVM watcherErr spawnErr rc werr vm = some (tr, vm') ∧
      tr.count VMAction.closeDone = 1 ∧ vm'.doneClosed = true := by
  cases watcherErr with
  | some e =>
      refine ⟨[VMAction.closeDone],
        { vm with started := true, error := some e, doneClosed := true }, ?_, rfl, rfl⟩
      simp [startVM, h]
  | none =>
    cases spawnErr with
    | some e =>
        refine ⟨[VMAction.closeDone],
          { vm with started := true, error := some e, doneClosed := true }, ?_, rfl, rfl⟩
        simp [startVM, h]
    | none =>
        refine ⟨(exitWatcher werr (readinessSelect rc { vm with started := true }).1).1,
          (exitWatcher werr (readinessSelect rc { vm with started := true }).1).2, ?_, rfl, rfl⟩
        simp [startVM, h]

/-- Witness for C2: a concrete run through the successful-spawn path. -/
theorem vm_done_closed_exactly_once_witness :
    ∃ tr vm',
      startVM none none (ReadinessCase.ready none) none
        { started := false, network := some { handler := none }, image := some 0,
          socketFolder := "sock", error := none, doneClosed := false } = some (tr, vm') ∧
      tr.count VMAction.closeDone = 1 ∧ vm'.doneClosed = true :=
  vm_done_closed_exactly_once none none none (ReadinessCase.ready none)
    { started := false, network := some { handler := none }, image := some 0,
      socketFolder := "sock", error := none, doneClosed := false } rfl

/-- C3: in the exit watcher, the done channel is closed last — after the
exit error is recorded (only when no earlier error exists), both output
pipes are closed, the network and image are released and cleared, and the
socket folder is removed — so a waiter unblocked by the done channel
observes a fully torn-down VM. -/
theorem vm_done_signal_closes_last (werr : Option GoError) (vm : VMState) :
    (exitWatcher werr vm).1.getLast? = some VMAction.closeDone ∧
    (exitWatcher werr vm).1.count VMAction.closeDone = 1 ∧
    VMAction.recordExitError ∈ (exitWatcher werr vm).1.dropLast ∧
    VMAction.closeStdout ∈ (exitWatcher werr vm).1.dropLast ∧
    VMAction.closeStderr ∈ (exitWatcher werr vm).1.dropLast ∧
    VMAction.releaseNetwork ∈ (exitWatcher werr vm).1.dropLast ∧
    VMAction.releaseImage ∈ (exitWatcher werr vm).1.dropLast ∧
    VMAction.removeSocketFolder ∈ (exitWatcher werr vm).1.dropLast ∧
    (exitWatcher werr vm).2.network = none ∧
    (exitWatcher werr vm).2.image = none ∧
    (exitWatcher werr vm).2.socketFolder = "" ∧
    (exitWatcher werr vm).2.doneClosed = true ∧
    (exitWatcher werr vm).2.error = (if vm.error = none then werr else vm.error) := by
  refine ⟨rfl, rfl, by simp [exitWatcher], by simp [exitWatcher], by simp [exitWatcher],
    by simp [exitWatcher], by simp [exitWatcher], by simp [exitWatcher], rfl, rfl, rfl, rfl, ?_⟩
  simp only [exitWatcher, recordExitError]
  by_cases h : vm.error = none <;> simp [h]

/-- C9: SetHTTPHandler never fails on a released VM — when the network
field is nil it mutates nothing, and in particular it is a no-op on the
state the exit watcher leaves behind. -/
theorem vm_setHTTPHandler_released_noop (vm : VMState) (h : Nat) (werr : Option GoError) :
    (vm.network = none → setHTTPHandler vm h = vm) ∧
    setHTTPHandler (exitWatcher werr vm).2 h = (exitWatcher werr vm).2 := by
  constructor
  · intro hn
    simp [setHTTPHandler, hn]
  · simp [setHTTPHandler, exitWatcher]

/-- Witness for C9: the no-op on a concrete released VM. -/
theorem vm_setHTTPHandler_released_noop_witness :
    setHTTPHandler
      { started := true, network := none, image := none,
        socketFolder := "", error := none, doneClosed := true } 5 =
      { started := true, network := none, image := none,
        socketFolder := "", error := none, doneClosed := true } :=
  (vm_setHTTPHandler_released_noop
    { started := true, network := none, image := none,
      socketFolder := "", error := none, doneClosed := true } 5 none).1 rfl

/-- C5: NewShell called while the session registry drains fails with the
sandbox-terminated error and changes neither the registry nor the shell
list; and every failing NewShell call — including a spawn failure, whose
count increment is rolled back by Done — leaves the active-session count
unchanged, so no counted session leaks and draining still reaches zero. -/
theorem sandbox_newShell_drain_and_rollback (spawnOk : Bool) (sid : Nat)
    (w : WaitGroupState) (shells : List Nat) :
    (w.draining = true →
      (newShellCall spawnOk sid w shells).result = Except.error GoError.errSandboxTerminated ∧
      (newShellCall spawnOk sid w shells).sessions = w ∧
      (newShellCall spawnOk sid w shells).shells = shells) ∧
    (∀ e, (newShellCall spawnOk sid w shells).result = Except.error e →
      (newShellCall spawnOk sid w shells).sessions.count = w.count) := by
  constructor
  · intro hd
    simp [newShellCall, wgAdd, hd]
  · intro e he
    by_cases hd : w.draining = true
    · simp [newShellCall, wgAdd, hd]
    · simp only [Bool.not_eq_true] at hd
      cases spawnOk with
      | true => simp [newShellCall, wgAdd, hd] at he
      | false => simp [newShellCall, wgAdd, wgDone, hd]

/-- Witness for C5: a draining registry rejects a shell, and a spawn
failure on an accepting registry restores the count. -/
theorem sandbox_newShell_drain_and_rollback_witness :
    (newShellCall true 7 { count := 0, draining := true } []).result =
      Except.error GoError.errSandboxTerminated ∧
    (newShellCall false 7 { count := 3, draining := false } [1, 2, 3]).sessions.count = 3 :=
  ⟨((sandbox_newShell_drain_and_rollback true 7 { count := 0, draining := true } []).1 rfl).1,
   (sandbox_newShell_drain_and_rollback false 7 { count := 3, draining := false } [1, 2, 3]).2
     (GoError.malformedPayload "Unable to spawn command") rfl⟩

/-- C6: the monitor delivers the 90-second timeout error when the two
sockets have not both been seen, and signals success when both create
events arrive; the readiness select in Start then kills the VM — but, at
the failing input where no earlier error is stored, the guard in the
source (vm.Error != nil) skips the assignment, so the timeout error is
never recorded in the terminal Error field, contradicting the claim. -/
theorem vm_readiness_timeout_not_recorded :
    monitorLoop [MonitorEvent.timeout] false false =
      MonitorOutcome.deliver socketTimeoutError ∧
    monitorLoop [MonitorEvent.fsEvent true "vnc.sock", MonitorEvent.timeout] false false =
      MonitorOutcome.deliver socketTimeoutError ∧
    monitorLoop [MonitorEvent.fsEvent true "vnc.sock", MonitorEvent.fsEvent true "qmp.sock"]
      false false = MonitorOutcome.success ∧
    (readinessSelect (ReadinessCase.ready (some socketTimeoutError))
      { started := true, network := some { handler := none }, image := some 1,
        socketFolder := "sock", error := none, doneClosed := false }).2 = true ∧
    (readinessSelect (ReadinessCase.ready (some socketTimeoutError))
      { started := true, network := some { handler := none }, image := some 1,
        socketFolder := "sock", error := none, doneClosed := false }).1.error = none := by
  decide

/-- C7 counterexample: a download-context payload whose fetched file has an
unrecognized archive extension does not fail construction — fetchContext
skips unpacking without error and newSandbox returns a sandbox, not a
malformed-payload error. -/
theorem fetchContext_unrecognized_ext_counterexample :
    fetchContext
      { download := Except.ok "context.xyz", chmodErr := none, chownErr := none,
        unzipErr := none, gunzip := Except.ok "", untarErr := none } = none ∧
    (newSandbox
      { createUser := true, newFolderErr := none, createUserErr := none,
        currentUserErr := none, contextURL := "http://host/context.xyz",
        fetch := { download := Except.ok "context.xyz", chmodErr := none, chownErr := none,
                   unzipErr := none, gunzip := Except.ok "", untarErr := none },
        startProcessErr := none }).result = Except.ok (initialSandbox true) := by
  constructor
  · rfl
  · rfl

/-- C7 amended: an unrecognized archive extension is not an error — when
download, chmod and ownership change succeed, fetchContext succeeds and
construction proceeds, leaving the file unpacked; it is when fetchContext
does fail (download, permissions, ownership, or unpacking a recognized
archive) that construction fails with a malformed-payload error and the
deferred cleanup removes the ephemeral user and then the working folder. -/
theorem fetchContext_unrecognized_ext_amended (env : FetchEnv) (fn : String)
    (benv : BuildEnv) (e : GoError) :
    (env.download = Except.ok fn → fileExt fn ≠ ".zip" → fileExt fn ≠ ".gz" →
      env.chmodErr = none → env.chownErr = none → fetchContext env = none) ∧
    (benv.createUser = true → benv.newFolderErr = none → benv.createUserErr = none →
      benv.contextURL ≠ "" → fetchContext benv.fetch = some e →
      (newSandbox benv).result =
        Except.error (GoError.malformedPayload ("Error downloading " ++ benv.contextURL)) ∧
      (newSandbox benv).userRemoved = true ∧ (newSandbox benv).folderRemoved = true) := by
  constructor
  · intro hdl hz hg hchmod hchown
    have hT : fileExt "" ≠ ".tar" := by decide
    simp only [fetchContext, hdl, hchmod, hchown, if_neg hz, if_neg hg, if_neg hT]
  · intro hcu hfolder huser hctx hfetch
    simp [newSandbox, newSandboxAfterUser, hcu, hfolder, huser, hctx, hfetch]

/-- Witness for C7: both branches of the amended statement at concrete
inputs — an unrecognized extension succeeds, a failing download removes
the allocated user. -/
theorem fetchContext_unrecognized_ext_amended_witness :
    fetchContext
      { download := Except.ok "bundle.bin", chmodErr := none, chownErr := none,
        unzipErr := none, gunzip := Except.ok "", untarErr := none } = none ∧
    (newSandbox
      { createUser := true, newFolderErr := none, createUserErr := none,
        currentUserErr := none, contextURL := "http://host/ctx.gz",
        fetch := { download := Except.error (GoError.ioError "connection refused"),
                   chmodErr := none, chownErr := none, unzipErr := none,
                   gunzip := Except.ok "", untarErr := none },
        startProcessErr := none }).userRemoved = true :=
  ⟨(fetchContext_unrecognized_ext_amended
      { download := Except.ok "bundle.bin", chmodErr := none, chownErr := none,
        unzipErr := none, gunzip := Except.ok "", untarErr := none } "bundle.bin"
      { createUser := true, newFolderErr := none, createUserErr := none,
        currentUserErr := none, contextURL := "http://host/ctx.gz",
        fetch := { download := Except.error (GoError.ioError "connection refused"),
                   chmodErr := none, chownErr := none, unzipErr := none,
                   gunzip := Except.ok "", untarErr := none },
        startProcessErr := none }
      (GoError.wrap "Error downloading" (GoError.ioError "connection refused"))).1
    rfl (by decide) (by decide) rfl rfl,
   ((fetchContext_unrecognized_ext_amended
      { download := Except.ok "bundle.bin", chmodErr := none, chownErr := none,
        unzipErr := none, gunzip := Except.ok "", untarErr := none } "bundle.bin"
      { createUser := true, newFolderErr := none, createUserErr := none,
        currentUserErr := none, contextURL := "http://host/ctx.gz",
        fetch := { download := Except.error (GoError.ioError "connection refused"),
                   chmodErr := none, chownErr := none, unzipErr := none,
                   gunzip := Except.ok "", untarErr := none },
        startProcessErr := none }
      (GoError.wrap "Error downloading" (GoError.ioError "connection refused"))).2
    rfl rfl rfl (by decide) rfl).2.1⟩

/-- C10: inspectImageFile is total over its error cases — a qemu-img
subprocess failure or an output that does not unmarshal yields none, never
a propagated error; a populated information value is returned exactly when
the subprocess succeeds and its output unmarshals. -/
theorem inspectImageFile_total_error_cases (format : ImageFormat) (env : QemuImgEnv) :
    (∀ e, env.output (formatArg format) = Except.error e →
      inspectImageFile format env = none) ∧
    (∀ data, env.output (formatArg format) = Except.ok data →
      env.unmarshal data = none → inspectImageFile format env = none) ∧
    (∀ info, inspectImageFile format env = some info →
      ∃ data, env.output (formatArg format) = Except.ok data ∧
        env.unmarshal data = some info) := by
  refine ⟨?_, ?_, ?_⟩
  · intro e he
    simp [inspectImageFile, he]
  · intro data hdata hml
    simp [inspectImageFile, hdata, hml]
  · intro info hinfo
    cases hout : env.output (formatArg format) with
    | error e =>
        have hnone : inspectImageFile format env = none := by
          simp [inspectImageFile, hout]
        rw [hnone] at hinfo
        exact Option.noConfusion hinfo
    | ok data =>
        cases hml : env.unmarshal data with
        | none =>
            have hnone : inspectImageFile format env = none := by
              simp [inspectImageFile, hout, hml]
            rw [hnone] at hinfo
            exact Option.noConfusion hinfo
        | some info' =>
            have hv : inspectImageFile format env = some info' := by
              simp [inspectImageFile, hout, hml]
            rw [hv] at hinfo
            have heq : info' = info := Option.some.inj hinfo
            exact ⟨data, rfl, heq ▸ hml⟩

/-- Witness for C10: a failing subprocess yields none at a concrete input. -/
theorem inspectImageFile_total_error_cases_witness :
    inspectImageFile ImageFormat.qcow2
      { output := fun _ => Except.error (GoError.ioError "qemu-img failed"),
        unmarshal := fun _ => none } = none :=
  (inspectImageFile_total_error_cases ImageFormat.qcow2
      { output := fun _ => Except.error (GoError.ioError "qemu-img failed"),
        unmarshal := fun _ => none }).1
    (GoError.ioError "qemu-img failed") rfl

end TCWorker
